import Mathlib

/-!
# Verification of the chat tool-call server

A shallow embedding, in Lean 4, of the core logic of a demonstration
tool-call server (calculator operations, unit conversion, JSON path
extraction, report generation, prompt-template substitution, resource
reading, file download guards, and the central tool dispatcher), together
with theorems settling the behavioural properties stated in the system's
specification.

Modelling conventions:
* Python numbers (ints and floats) are modelled as exact rationals `ℚ`;
  IEEE-754 rounding is below the altitude of every statement proved here.
* Raising an exception is modelled as returning `Except.error msg`;
  a `try/except` re-raise that rewraps the message is modelled with
  `Except.mapError`.
* Presentation-only fields of result dictionaries (`formatted` strings,
  timestamps, file sizes obtained from the OS) and JSON-schema metadata
  are omitted from the result structures; every field a claim mentions is
  kept.
* Dictionary arguments with `args.get(key, default)` access are modelled
  as structures of `Option`-typed fields with the same defaults.
-/

namespace ChatMcp

/-! ## Calculator tools (`tools/calc_tools.py`) -/

/-- A value of the Python `CONVERSION_FACTORS` dict: either a plain scalar
factor or one of the four temperature-conversion lambdas (the lambda is
represented by a tag; `applyFactor` gives its graph). -/
inductive Factor where
  | scalar (q : ℚ)
  | celsiusToFahrenheit
  | fahrenheitToCelsius
  | celsiusToKelvin
  | kelvinToCelsius
deriving DecidableEq, Repr

/-- Application of a factor to a value: multiplication for a scalar,
the coded formula for each temperature lambda. -/
def applyFactor : Factor → ℚ → ℚ
  | .scalar f, v => v * f
  | .celsiusToFahrenheit, c => c * 9 / 5 + 32
  | .fahrenheitToCelsius, f => (f - 32) * 5 / 9
  | .celsiusToKelvin, c => c + 27315 / 100
  | .kelvinToCelsius, k => k - 27315 / 100

/-- Python's `callable(factor)`: true exactly for the temperature lambdas. -/
def Factor.isCallable : Factor → Bool
  | .scalar _ => false
  | _ => true

/-- The `CONVERSION_FACTORS` table of `calc_tools.py`, with the decimal
float literals read as exact rationals. -/
def CONVERSION_FACTORS : List (String × Factor) :=
  [ ("mm_to_cm", .scalar (1/10)),
    ("cm_to_m", .scalar (1/100)),
    ("m_to_km", .scalar (1/1000)),
    ("in_to_ft", .scalar (1/12)),
    ("ft_to_yd", .scalar (1/3)),
    ("yd_to_mi", .scalar (1/1760)),
    ("g_to_kg", .scalar (1/1000)),
    ("kg_to_lb", .scalar (220462/100000)),
    ("lb_to_oz", .scalar 16),
    ("celsius_to_fahrenheit", .celsiusToFahrenheit),
    ("fahrenheit_to_celsius", .fahrenheitToCelsius),
    ("celsius_to_kelvin", .celsiusToKelvin),
    ("kelvin_to_celsius", .kelvinToCelsius) ]

/-- Arguments of the four basic arithmetic tools; `none` models an absent
dictionary key (the source reads `args.get("a", 0)` / `args.get("b", 0)`). -/
structure BasicArgs where
  a : Option ℚ := none
  b : Option ℚ := none
deriving DecidableEq, Repr

/-- Result dictionary of `calculate_basic` (the `formatted` string is
presentation-only and omitted). -/
structure BasicResult where
  operation : String
  a : ℚ
  b : ℚ
  result : ℚ
deriving DecidableEq, Repr

/-- `calculate_basic` of `calc_tools.py`: absent operands default to `0`;
division by zero and an unknown operation raise `ValueError`, which the
function's own `except ValueError` clause rewraps as
`"Invalid input: <msg>"`. -/
def calculate_basic (operation : String) (args : BasicArgs) :
    Except String BasicResult :=
  (Except.mapError (fun e => "Invalid input: " ++ e)) <| do
    let a := args.a.getD 0
    let b := args.b.getD 0
    let result ←
      if operation = "add" then pure (a + b)
      else if operation = "subtract" then pure (a - b)
      else if operation = "multiply" then pure (a * b)
      else if operation = "divide" then
        if b = 0 then Except.error "Cannot divide by zero"
        else pure (a / b)
      else Except.error ("Unknown operation: " ++ operation)
    pure { operation := operation, a := a, b := b, result := result }

/-- Arguments of the `convert_units` tool, with the source's `args.get`
defaults (`0` for the value, `""` for the unit names). -/
structure ConvertArgs where
  value : Option ℚ := none
  from_unit : Option String := none
  to_unit : Option String := none

/-- Result dictionary of `convert_units` (the `formatted` string is
presentation-only and omitted). -/
structure ConvertResult where
  original_value : ℚ
  from_unit : String
  to_unit : String
  converted_value : ℚ
deriving DecidableEq, Repr

/-- Python's `str.lower()` (ASCII altitude: all strings the claims touch
are ASCII), character by character over the string's data. -/
def pyLower (s : String) : String := ⟨s.data.map Char.toLower⟩

/-- Boolean substring test on character lists, modelling Python's
`sub in s` for strings. -/
def substrB (p : List Char) : List Char → Bool
  | [] => p.isEmpty
  | c :: rest => p.isPrefixOf (c :: rest) || substrB p rest

/-- Python `sub in s` on `String`s. -/
def strContains (s sub : String) : Bool :=
  substrB sub.data s.data

/-- `convert_units` of `calc_tools.py`: lowercases both unit names, looks
up `"<from>_to_<to>"` in the factor table (scalar ⇒ multiply, lambda ⇒
apply); otherwise looks up the reverse key (scalar ⇒ divide; callable ⇒
the special-cased celsius/fahrenheit inverse, else `ValueError`); if
neither key exists raises `ValueError`.  All internal raises are
`ValueError`s, rewrapped by the function's own handler as
`"Invalid input: <msg>"`. -/
def convert_units (args : ConvertArgs) : Except String ConvertResult :=
  (Except.mapError (fun e => "Invalid input: " ++ e)) <| do
    let value := args.value.getD 0
    let from_unit := pyLower (args.from_unit.getD "")
    let to_unit := pyLower (args.to_unit.getD "")
    let conversion_key := from_unit ++ "_to_" ++ to_unit
    let result ←
      match CONVERSION_FACTORS.lookup conversion_key with
      | some factor => pure (applyFactor factor value)
      | none =>
        let reverse_key := to_unit ++ "_to_" ++ from_unit
        match CONVERSION_FACTORS.lookup reverse_key with
        -- `callable(factor)` is false exactly for the scalar rows, so the
        -- scalar row is the not-callable branch of the source's `if`.
        | some (.scalar f) => pure (value / f)
        | some _ =>
          if strContains reverse_key "celsius" && strContains reverse_key "fahrenheit" then
            pure ((value - 32) * 5 / 9)
          else if strContains reverse_key "fahrenheit" && strContains reverse_key "celsius" then
            pure (value * 9 / 5 + 32)
          else
            Except.error ("Cannot reverse convert " ++ from_unit ++ " to " ++ to_unit)
        | none =>
          Except.error ("Conversion from " ++ from_unit ++ " to " ++ to_unit ++ " not supported")
    pure { original_value := value, from_unit := from_unit,
           to_unit := to_unit, converted_value := result }

/-! ### end of definitions for the calculator tools -/


/-! ## List-level string utilities

Lean's own `String.splitOn`, `String.startsWith` and `String.drop` are
not kernel-reducible, so the Python string primitives the source uses are
modelled directly on the character list of the string (ASCII altitude). -/

/-- Python `s.startswith(p)`. -/
def strStartsWith (s p : String) : Bool := p.data.isPrefixOf s.data

/-- Python `s[n:]` for a nonnegative index. -/
def pyDrop (s : String) (n : ℕ) : String := ⟨s.data.drop n⟩

/-- Python `s.split(sep)` on character lists, for a nonempty separator:
splits at every non-overlapping occurrence of `sep`, scanning left to
right.  The structural fuel argument keeps the recursion
kernel-reducible; fuel equal to the list length (as `pySplit` passes) is
always sufficient, since each step consumes at least one character.
(An empty separator raises in Python and is never used by the source.) -/
def splitFuel (sep : List Char) : ℕ → List Char → List (List Char)
  | 0, s => [s]
  | _ + 1, [] => [[]]
  | fuel + 1, c :: rest =>
    if sep ≠ [] ∧ sep.isPrefixOf (c :: rest) then
      [] :: splitFuel sep fuel (List.drop sep.length (c :: rest))
    else
      match splitFuel sep fuel rest with
      | [] => [[c]]
      | piece :: pieces => (c :: piece) :: pieces

/-- Python `s.split(sep)` on `String`s. -/
def pySplit (s sep : String) : List String :=
  (splitFuel sep.data s.data.length s.data).map (fun l => ⟨l⟩)

/-- Python `s.replace(pat, rep)` on character lists, for a nonempty
pattern: replaces every non-overlapping occurrence of `pat`, scanning
left to right.  Fuel as in `splitFuel`.  (An empty pattern never arises:
the source only replaces `"{key}"` patterns.) -/
def replaceFuel (pat rep : List Char) : ℕ → List Char → List Char
  | 0, s => s
  | _ + 1, [] => []
  | fuel + 1, c :: rest =>
    if pat ≠ [] ∧ pat.isPrefixOf (c :: rest) then
      rep ++ replaceFuel pat rep fuel (List.drop pat.length (c :: rest))
    else
      c :: replaceFuel pat rep fuel rest

/-- Python `s.replace(pat, rep)` on `String`s. -/
def pyReplace (s pat rep : String) : String :=
  ⟨replaceFuel pat.data rep.data s.data.length s.data⟩

/-! ## Tool registry and dispatcher (`server.py`)

The twelve handler coroutines perform I/O (file system, network), so the
dispatcher is embedded relative to a record of handler outcome functions:
each handler is a function from the argument dictionary to `Except`,
`Except.error msg` standing for a raised exception.  The dispatcher's own
logic — the name routing, the unknown-name raise, and the
`try/except`-to-envelope conversion — is translated from
`handle_call_tool` of `server.py`. -/

/-- The outcomes of the twelve tool handlers `handle_call_tool` routes to.
`A` is the type of argument dictionaries and `V` the type of handler
return values; both are opaque to the dispatcher. -/
structure Handlers (A V : Type) where
  calculate_basic : String → A → Except String V
  calculate_advanced : String → A → Except String V
  convert_units : A → Except String V
  read_file_content : A → Except String V
  write_file_content : A → Except String V
  list_directory : A → Except String V
  fetch_webpage : A → Except String V
  search_web : A → Except String V
  download_file : A → Except String V
  analyze_csv : A → Except String V
  process_json : A → Except String V
  generate_report : A → Except String V

/-- Tool names of `get_calculator_tools` (`calc_tools.py`), in
registration order.  Schemas and descriptions are caller-facing metadata
not modelled here. -/
def calculatorToolNames : List String :=
  ["add", "subtract", "multiply", "divide", "power", "sqrt", "log",
   "sin", "cos", "tan", "convert_units"]

/-- Tool names of `get_file_tools` (`file_tools.py`). -/
def fileToolNames : List String := ["read_file", "write_file", "list_directory"]

/-- Tool names of `get_web_tools` (`web_tools.py`). -/
def webToolNames : List String := ["fetch_webpage", "search_web", "download_file"]

/-- Tool names of `get_data_tools` (`data_tools.py`). -/
def dataToolNames : List String := ["analyze_csv", "process_json", "generate_report"]

/-- The keys of the `self.tools` registry built by `_register_tools`:
all four tool groups, in registration order. -/
def registeredToolNames : List String :=
  calculatorToolNames ++ fileToolNames ++ webToolNames ++ dataToolNames

/-- The body of the `try` block of `handle_call_tool`: the name-routing
chain, ending in the `Unknown tool` raise when no branch matches. -/
def route {A V : Type} (h : Handlers A V) (tool_name : String) (args : A) :
    Except String V :=
  if tool_name ∈ ["add", "subtract", "multiply", "divide"] then
    h.calculate_basic tool_name args
  else if tool_name ∈ ["power", "sqrt", "log", "sin", "cos", "tan"] then
    h.calculate_advanced tool_name args
  else if tool_name = "convert_units" then h.convert_units args
  else if tool_name = "read_file" then h.read_file_content args
  else if tool_name = "write_file" then h.write_file_content args
  else if tool_name = "list_directory" then h.list_directory args
  else if tool_name = "fetch_webpage" then h.fetch_webpage args
  else if tool_name = "search_web" then h.search_web args
  else if tool_name = "download_file" then h.download_file args
  else if tool_name = "analyze_csv" then h.analyze_csv args
  else if tool_name = "process_json" then h.process_json args
  else if tool_name = "generate_report" then h.generate_report args
  else Except.error ("Unknown tool: " ++ tool_name)

/-- The result envelope of a tool call: a list of textual content items
(each item models a `TextContent(type="text", text=...)`). -/
structure CallToolResult where
  content : List String
deriving DecidableEq, Repr

/-- `handle_call_tool` of `server.py`: runs the routing chain inside a
`try/except` that converts a success value `r` into an envelope holding
`str(r)` (the rendering `render` models Python's `str`) and any raised
failure into an envelope holding `"Error: <message>"`. -/
def handle_call_tool {A V : Type} (h : Handlers A V) (render : V → String)
    (tool_name : String) (args : A) : CallToolResult :=
  match route h tool_name args with
  | .ok result => { content := [render result] }
  | .error e => { content := ["Error: " ++ e] }

/-! ## Resources (`server.py` and `resources/file_resources.py`) -/

/-- The URI catalog built by `get_file_resources` of `file_resources.py`:
a `file://<path>` URI for each discovered data file (the `data/*.txt`,
`data/*.csv`, `data/*.json` glob results are I/O, so the discovered
relative paths arrive as the `dataFiles` parameter, in glob order),
followed by the two fixed `system://` resources.  Names, descriptions and
MIME types are caller-facing metadata not modelled here. -/
def get_file_resources (dataFiles : List String) : List String :=
  (dataFiles.map (fun p => "file://" ++ p)) ++ ["system://status", "system://logs"]

/-- `handle_read_resource` of `server.py`, relative to a file-system
oracle `fs` (mapping a path to its content or a raised I/O error): an
unregistered URI raises `Resource not found`; a registered `file://` URI
is read by opening the path after the 7-character prefix (a read failure
is re-raised by the `except` clause); any other registered URI raises
`Unsupported resource type`.  The successful result carries the file
content as its single text item. -/
def handle_read_resource (fs : String → Except String String)
    (resources : List String) (uri : String) : Except String (List String) :=
  if uri ∉ resources then
    Except.error ("Resource not found: " ++ uri)
  else if strStartsWith uri "file://" then
    (fs (pyDrop uri 7)).map (fun content => [content])
  else
    Except.error ("Unsupported resource type: " ++ uri)

/-! ## Prompts (`server.py`) -/

/-- A prompt message of the `GetPromptResult`: a role and a textual
content item. -/
structure PromptMessage where
  role : String
  content : String
deriving DecidableEq, Repr

/-- The result of `handle_get_prompt`: the substituted description and
the message list. -/
structure GetPromptResult where
  description : Option String
  messages : List PromptMessage
deriving DecidableEq, Repr

/-- The template substitution loop of `handle_get_prompt`: for each
`(key, value)` of the argument mapping, in order, textually replaces
every occurrence of `"{key}"` by the value. -/
def substAll (description : String) (args : List (String × String)) : String :=
  args.foldl (fun d kv => pyReplace d ("\x7b" ++ kv.1 ++ "\x7d") kv.2) description

/-- `handle_get_prompt` of `server.py`, relative to the prompt catalog
(name ↦ optional description): an unknown name raises; otherwise the
description (when truthy, i.e. present and nonempty) undergoes `{key}`
substitution, and the result carries it both as the result description
and as the content of the single `user` message (`description or ""`). -/
def handle_get_prompt (prompts : List (String × Option String))
    (name : String) (args : List (String × String)) :
    Except String GetPromptResult :=
  match prompts.lookup name with
  | none => Except.error ("Prompt not found: " ++ name)
  | some descOpt =>
    let description :=
      match descOpt with
      | some d => if d = "" then some d else some (substAll d args)
      | none => none
    Except.ok { description := description,
                messages := [{ role := "user", content := description.getD "" }] }



/-! ## JSON processing (`tools/data_tools.py`) -/

/-- JSON values, as produced by Python's `json.load`.  Python ints and
floats are both carried as exact rationals. -/
inductive Json where
  | null
  | bool (b : Bool)
  | num (q : ℚ)
  | str (s : String)
  | arr (elems : List Json)
  | obj (fields : List (String × Json))
deriving Repr

/-- Python's `type(obj).__name__` for a JSON value (used only inside
error messages; `num` stands for both `int` and `float` and reports
`"float"`). -/
def pyTypeName : Json → String
  | .null => "NoneType"
  | .bool _ => "bool"
  | .num _ => "float"
  | .str _ => "str"
  | .arr _ => "list"
  | .obj _ => "dict"

/-- Python `int(s)` on a path segment: an optional sign followed by at
least one digit parses to an integer, anything else raises `ValueError`.
(Surrounding whitespace and digit-group underscores, which Python also
accepts, never occur in the paths the claims touch.) -/
def digitsVal : List Char → Option ℕ
  | [] => none
  | ds =>
    if ds.all Char.isDigit then
      some (ds.foldl (fun a c => a * 10 + (c.toNat - 48)) 0)
    else none

/-- Python `int(s)` on `String`s (see `digitsVal`). -/
def pyInt? (s : String) : Option ℤ :=
  match s.data with
  | '+' :: rest => (digitsVal rest).map Int.ofNat
  | '-' :: rest => (digitsVal rest).map (fun n => -(n : ℤ))
  | ds => (digitsVal ds).map Int.ofNat

/-- The errors `_extract_by_path` raises, by Python exception class:
`KeyError` for a missing object key, `IndexError` for an out-of-range
array index, `ValueError` for a non-numeric segment applied to an array,
`TypeError` for a segment applied to a scalar. -/
inductive ExtractErr where
  | keyNotFound (key : String)
  | indexOutOfRange (index : ℤ)
  | invalidIndex (segment : String)
  | cannotAccess (segment : String) (typeName : String)
deriving DecidableEq, Repr

/-- `_extract_by_path` of `data_tools.py`: follows the path segment by
segment; a dict is accessed by key (`KeyError` when absent), a list by
`int(segment)` (`ValueError` when non-numeric, `IndexError` when outside
`[0, len)`), anything else raises `TypeError`.  The list branch runs its
recursive call inside the same `try` whose `except ValueError` clause
re-raises as `Invalid array index: <current segment>`, so a nested
`ValueError` is re-attributed to the current segment — the nested `match`
models that re-raise. -/
def extract_by_path (j : Json) (path : List String) : Except ExtractErr Json :=
  match path with
  | [] => Except.ok j
  | current :: remaining =>
    match j with
    | .obj fields =>
      match fields.lookup current with
      | some v => extract_by_path v remaining
      | none => Except.error (.keyNotFound current)
    | .arr elems =>
      match pyInt? current with
      | some index =>
        if h : 0 ≤ index ∧ index < (elems.length : ℤ) then
          match extract_by_path (elems.get ⟨index.toNat, by omega⟩) remaining with
          | .error (.invalidIndex _) => Except.error (.invalidIndex current)
          | r => r
        else Except.error (.indexOutOfRange index)
      | none => Except.error (.invalidIndex current)
    | other => Except.error (.cannotAccess current (pyTypeName other))

/-- The `operation == "extract"` branch of `process_json`
(`data_tools.py`), relative to an already parsed JSON document and a
nonempty `json_path`: splits the path on `"."` and extracts; the
returned value is the `extracted_data` field of the result dictionary. -/
def process_json_extract (data : Json) (json_path : String) :
    Except ExtractErr Json :=
  extract_by_path data (pySplit json_path ".")

/-! ## Report generation (`tools/data_tools.py`) -/

/-- The per-column entry of the `missing_values` mapping of an analysis
result. -/
structure MissingInfo where
  count : ℤ
  percentage : ℚ
deriving DecidableEq, Repr

/-- The slice of an `analyze_csv`-shaped analysis-result dictionary that
`_calculate_quality_score` reads: the optional `missing_values` mapping
(`none` models an absent key). -/
structure ReportData where
  missing_values : Option (List (String × MissingInfo)) := none
deriving Repr

/-- Round-half-to-even to an integer, the rounding mode of Python's
built-in `round`. -/
def roundHalfEven (q : ℚ) : ℤ :=
  let f := ⌊q⌋
  let frac := q - f
  if frac < 1/2 then f
  else if frac > 1/2 then f + 1
  else if f % 2 = 0 then f else f + 1

/-- Python `round(q, 2)` on the exact-rational model. -/
def round2 (q : ℚ) : ℚ := (roundHalfEven (q * 100) : ℚ) / 100

/-- `_calculate_quality_score` of `data_tools.py`: `100` when the
`missing_values` key is absent; otherwise
`round(max(0, 100 - mean percentage), 2)` — and a *present but empty*
mapping raises `ZeroDivisionError` (`total / len(...)`). -/
def calculate_quality_score (data : ReportData) : Except String ℚ :=
  match data.missing_values with
  | none => Except.ok 100
  | some mv =>
    if mv.length = 0 then Except.error "division by zero"
    else
      let total := (mv.map (fun kv => kv.2.percentage)).sum
      let avg := total / (mv.length : ℚ)
      Except.ok (round2 (max 0 (100 - avg)))

/-- The slice of `_generate_detailed_report` the claims touch: the report
kind tag and the quality score (`full_analysis`, `field_analysis` and the
timestamp are echoes of the input or presentation-only). -/
structure DetailedReport where
  report_type : String
  data_quality_score : ℚ
deriving DecidableEq, Repr

/-- `generate_report` of `data_tools.py` for `report_type="detailed"`,
relative to a supplied (non-empty) data dictionary: builds the detailed
report; any failure raised underneath (such as the quality score's
`ZeroDivisionError`) is rewrapped by the function's `except` clause as
`"Report generation failed: <msg>"`. -/
def generate_report_detailed (data : ReportData) : Except String DetailedReport :=
  (Except.mapError (fun e => "Report generation failed: " ++ e)) <|
    (calculate_quality_score data).map
      (fun q => { report_type := "detailed", data_quality_score := q })

/-! ## File download (`tools/web_tools.py`) -/

/-- `MAX_RESPONSE_SIZE` of `web_tools.py`. -/
def MAX_RESPONSE_SIZE : ℕ := 1024 * 1024

/-- Whether a string is a well-formed URL scheme token (`urlparse`
recognises a scheme only before the first `:`, and only when it starts
with a letter and continues with letters, digits, `+`, `-`, `.`). -/
def isSchemeStr (p : String) : Bool :=
  match p.data with
  | [] => false
  | c :: rest =>
    c.isAlpha && rest.all (fun d => d.isAlphanum || d = '+' || d = '-' || d = '.')

/-- The scheme `urlparse(url).scheme` extracts: the lowercased text
before the first `:` when it is a well-formed scheme token, else `""`. -/
def urlScheme (u : String) : String :=
  match pySplit u ":" with
  | p :: _ :: _ => if isSchemeStr p then pyLower p else ""
  | _ => ""

/-- `_validate_url` of `web_tools.py`: raises unless the scheme is
`http` or `https`; the raise is rewrapped by the function's own handler
as `"Invalid URL: <msg>"`.  (The domain allow-list check only logs a
warning and never fails, so it has no observable effect here.) -/
def validate_url (url : String) : Except String String :=
  if urlScheme url = "http" || urlScheme url = "https" then Except.ok url
  else Except.error "Invalid URL: Only HTTP and HTTPS URLs are allowed"

/-- The fallback filename `urlparse(url).path.split('/')[-1]` of
`download_file`: the last `/`-separated segment after the
`scheme://host` part (query/fragment splitting is omitted; this branch
only runs when no explicit filename is supplied, which no claim
exercises). -/
def defaultDownloadName (vurl : String) : String :=
  match pySplit vurl "://" with
  | _ :: hostAndPath :: _ =>
    match pySplit hostAndPath "/" with
    | [] => ""
    | [_] => ""
    | _ :: segs => (segs.getLast?).getD ""
  | _ => ""

/-- A network response, as the `download_file` model observes it: the
HTTP status, the optional `Content-Length` header value, and the sizes of
the chunks `iter_chunked` yields. -/
structure NetResp where
  status : ℤ
  content_length : Option ℤ
  chunks : List ℕ
deriving Repr

/-- Arguments of the `download_file` tool, with the source's `args.get`
defaults. -/
structure DlArgs where
  url : Option String := none
  filename : Option String := none
deriving Repr

/-- Result dictionary of a successful `download_file` (the
`content_type` echo of a response header is presentation-only). -/
structure DlResult where
  url : String
  filename : String
  size : ℕ
  success : Bool
deriving DecidableEq, Repr

/-- Which externally visible effects a `download_file` call performed:
whether the HTTP request was issued and whether the target file was
opened for writing (created on disk). -/
structure DlEffects where
  networkOpened : Bool
  fileCreated : Bool
deriving DecidableEq, Repr

/-- The chunk-writing loop of `download_file`: writes each chunk, then
fails once the cumulative size exceeds the ceiling; returns the total
size written. -/
def writeChunks (maxSize : ℕ) : List ℕ → ℕ → Except String ℕ
  | [], acc => Except.ok acc
  | c :: rest, acc =>
    let acc' := acc + c
    if acc' > maxSize then
      Except.error ("File too large: " ++ toString acc' ++ " bytes")
    else writeChunks maxSize rest acc'

/-- `download_file` of `web_tools.py`, relative to a network oracle
`net` (`Except.error` standing for a raised `aiohttp` failure).  Steps,
in source order: the `url is required` check, `_validate_url`, the
fallback filename, the `".."`/`"/"` filename validation, the HTTP
request, the status check, the `Content-Length` ceiling check, and the
chunk loop.  Every raise is rewrapped by the function's outer `except`
clause as `"Download failed: <msg>"`.  The second component records
whether the request was issued and whether the target file was opened
for writing before the call finished. -/
def download_file (net : String → Except String NetResp) (args : DlArgs) :
    Except String DlResult × DlEffects :=
  let wrap := Except.mapError (fun e => "Download failed: " ++ (e : String))
  let url := args.url.getD ""
  if url = "" then (wrap (Except.error "url is required"), ⟨false, false⟩)
  else
    match validate_url url with
    | .error e => (wrap (Except.error e), ⟨false, false⟩)
    | .ok validated_url =>
      let filename0 := args.filename.getD ""
      let filename :=
        if filename0 = "" then
          let fromUrl := defaultDownloadName validated_url
          if fromUrl = "" then "downloaded_file" else fromUrl
        else filename0
      if strContains filename ".." || strContains filename "/" then
        (wrap (Except.error "Invalid filename"), ⟨false, false⟩)
      else
        match net validated_url with
        | .error e => (wrap (Except.error e), ⟨true, false⟩)
        | .ok resp =>
          if resp.status ≠ 200 then
            (wrap (Except.error ("Download failed with status " ++ toString resp.status)),
             ⟨true, false⟩)
          else if (resp.content_length.getD 0) > (MAX_RESPONSE_SIZE : ℤ) then
            (wrap (Except.error ("File too large: " ++
               toString (resp.content_length.getD 0) ++ " bytes")), ⟨true, false⟩)
          else
            match writeChunks MAX_RESPONSE_SIZE resp.chunks 0 with
            | .error e => (wrap (Except.error e), ⟨true, true⟩)
            | .ok size =>
              (Except.ok { url := validated_url, filename := filename,
                           size := size, success := true }, ⟨true, true⟩)

/-- A concrete instantiation of the handler record over trivial argument
and value types, with one deliberately failing handler; used to exercise
the dispatcher theorems on concrete inputs. -/
def stubHandlers : Handlers Unit String where
  calculate_basic := fun _ _ => Except.ok "ok"
  calculate_advanced := fun _ _ => Except.ok "ok"
  convert_units := fun _ => Except.error "boom"
  read_file_content := fun _ => Except.ok "ok"
  write_file_content := fun _ => Except.ok "ok"
  list_directory := fun _ => Except.ok "ok"
  fetch_webpage := fun _ => Except.ok "ok"
  search_web := fun _ => Except.ok "ok"
  download_file := fun _ => Except.ok "ok"
  analyze_csv := fun _ => Except.ok "ok"
  process_json := fun _ => Except.ok "ok"
  generate_report := fun _ => Except.ok "ok"

/-- A network oracle that refuses every request; the filename-guard
theorems never reach it. -/
def netRefuse : String → Except String NetResp := fun _ => Except.error "connection refused"

/-! # Theorems -/

/-! ## Key-shape facts about the conversion table

No key of `CONVERSION_FACTORS` has the shape `u ++ "_to_" ++ u`: the six
keys of length 8 pair two distinct two-letter units, and every other key
has odd length while `u ++ "_to_" ++ u` always has even length. -/

/-- A string of shape `u ++ "_to_" ++ u` has even length, so it differs
from any odd-length key. -/
lemma not_self_odd (u : List Char) (k : List Char) (hodd : k.length % 2 = 1) :
    u ++ ['_','t','o','_'] ++ u ≠ k := by
  intro h
  have hl := congrArg List.length h
  simp at hl
  omega

/-- A string of shape `u ++ "_to_" ++ u` matching an 8-character key
`k1 k2 _ t o _ k7 k8` would force `u = [k1,k2]` and `u = [k7,k8]`, so the
two unit halves of the key would coincide. -/
lemma not_self_pair (u : List Char) (k1 k2 k7 k8 : Char) (hne : ¬(k1 = k7 ∧ k2 = k8)) :
    u ++ ['_','t','o','_'] ++ u ≠ [k1, k2, '_', 't', 'o', '_', k7, k8] := by
  intro h
  have hl := congrArg List.length h
  simp at hl
  have h2 : u.length = 2 := by omega
  obtain ⟨a, b, rfl⟩ := List.length_eq_two.mp h2
  simp at h
  obtain ⟨ha1, hb1, ha2, hb2⟩ := h
  exact hne ⟨ha1.symm.trans ha2, hb1.symm.trans hb2⟩

/-- For every string `w`, the self-conversion key `w ++ "_to_" ++ w` is
absent from `CONVERSION_FACTORS`. -/
lemma lookup_self_none (w : String) :
    CONVERSION_FACTORS.lookup (w ++ "_to_" ++ w) = none := by
  have hdata : (w ++ "_to_" ++ w).data = w.data ++ ['_','t','o','_'] ++ w.data := by
    simp [String.data_append]
  have hne : ∀ k : String, k.data ≠ w.data ++ ['_','t','o','_'] ++ w.data →
      (w ++ "_to_" ++ w == k) = false := by
    intro k hk
    rw [beq_eq_false_iff_ne]
    intro heq
    exact hk (by rw [← hdata, heq])
  have hp : ∀ k : String, ∀ k1 k2 k7 k8 : Char,
      k.data = [k1, k2, '_', 't', 'o', '_', k7, k8] → ¬(k1 = k7 ∧ k2 = k8) →
      (w ++ "_to_" ++ w == k) = false := by
    intro k k1 k2 k7 k8 hkd hnep
    exact hne k (fun h => not_self_pair w.data k1 k2 k7 k8 hnep (by rw [← h, hkd]))
  have ho : ∀ k : String, k.data.length % 2 = 1 → (w ++ "_to_" ++ w == k) = false := by
    intro k hkodd
    exact hne k (fun h => not_self_odd w.data k.data hkodd h.symm)
  simp only [CONVERSION_FACTORS, List.lookup,
    hp "mm_to_cm" 'm' 'm' 'c' 'm' (by decide) (by decide),
    ho "cm_to_m" (by decide),
    ho "m_to_km" (by decide),
    hp "in_to_ft" 'i' 'n' 'f' 't' (by decide) (by decide),
    hp "ft_to_yd" 'f' 't' 'y' 'd' (by decide) (by decide),
    hp "yd_to_mi" 'y' 'd' 'm' 'i' (by decide) (by decide),
    ho "g_to_kg" (by decide),
    hp "kg_to_lb" 'k' 'g' 'l' 'b' (by decide) (by decide),
    hp "lb_to_oz" 'l' 'b' 'o' 'z' (by decide) (by decide),
    ho "celsius_to_fahrenheit" (by decide),
    ho "fahrenheit_to_celsius" (by decide),
    ho "celsius_to_kelvin" (by decide),
    ho "kelvin_to_celsius" (by decide)]

/-- If the pattern occurs nowhere in `s`, one pass of the replacement
scanner leaves `s` unchanged (for any fuel). -/
lemma replaceFuel_no_occurrence (pat rep : List Char) (fuel : ℕ) (s : List Char)
    (h : substrB pat s = false) : replaceFuel pat rep fuel s = s := by
  induction fuel generalizing s with
  | zero => rfl
  | succ n ih =>
    cases s with
    | nil => rfl
    | cons c rest =>
      simp only [substrB, Bool.or_eq_false_iff] at h
      obtain ⟨hpre, hrest⟩ := h
      rw [replaceFuel, if_neg (by simp [hpre]), ih rest hrest]

/-- If no supplied key occurs as a `"{key}"` placeholder in the
description, the whole substitution fold leaves it unchanged. -/
lemma substAll_no_occurrence (args : List (String × String)) (d : String)
    (h : ∀ kv ∈ args, substrB ("\x7b" ++ kv.1 ++ "\x7d").data d.data = false) :
    substAll d args = d := by
  induction args with
  | nil => rfl
  | cons kv rest ih =>
    have hid : pyReplace d ("\x7b" ++ kv.1 ++ "\x7d") kv.2 = d := by
      show (⟨replaceFuel ("\x7b" ++ kv.1 ++ "\x7d").data kv.2.data d.data.length d.data⟩ : String) = d
      rw [replaceFuel_no_occurrence _ _ _ _ (h kv (List.mem_cons_self kv rest))]
    calc substAll d (kv :: rest)
        = substAll (pyReplace d ("\x7b" ++ kv.1 ++ "\x7d") kv.2) rest := rfl
      _ = substAll d rest := by rw [hid]
      _ = d := ih (fun kv' h' => h kv' (List.mem_cons_of_mem kv h'))

/-- `_validate_url` only ever succeeds with the url it was given. -/
lemma validate_url_ok_eq (u v : String) (h : validate_url u = Except.ok v) : v = u := by
  by_cases hc : urlScheme u = "http" || urlScheme u = "https"
  · simp [validate_url, hc] at h
    exact h.symm
  · simp [validate_url, hc] at h

/-- Claim C1: every failure of the routed handler (the unknown-name raise
included) is caught at the dispatch boundary and becomes an envelope whose
single text item is `"Error: "` followed by the failure message; a success
becomes an envelope of the same single-text-item shape; `handle_call_tool`
is total, so no failure propagates to the caller. -/
theorem dispatch_converts_failures {A V : Type} (h : Handlers A V)
    (render : V → String) (tool_name : String) (args : A) :
    (∃ t, handle_call_tool h render tool_name args = ⟨[t]⟩) ∧
    (∀ e, route h tool_name args = Except.error e →
      handle_call_tool h render tool_name args = ⟨["Error: " ++ e]⟩) ∧
    (∀ v, route h tool_name args = Except.ok v →
      handle_call_tool h render tool_name args = ⟨[render v]⟩) := by
  rcases hr : route h tool_name args with e | v
  · refine ⟨⟨"Error: " ++ e, by simp [handle_call_tool, hr]⟩, ?_, ?_⟩
    · intro e' he'
      injection he' with he'
      subst he'
      simp [handle_call_tool, hr]
    · intro v hv
      exact Except.noConfusion hv
  · refine ⟨⟨render v, by simp [handle_call_tool, hr]⟩, ?_, ?_⟩
    · intro e' he'
      exact Except.noConfusion he'
    · intro v' hv
      injection hv with hv
      subst hv
      simp [handle_call_tool, hr]

/-- Witness for C1: dispatching `convert_units` against a handler record
whose `convert_units` handler fails with `"boom"` yields the
`"Error: boom"` envelope. -/
theorem dispatch_converts_failures_witness :
    handle_call_tool stubHandlers id "convert_units" () = ⟨["Error: boom"]⟩ :=
  (dispatch_converts_failures stubHandlers id "convert_units" ()).2.1 "boom" rfl

/-- Claim C2: dispatching a name outside the registered tool catalog
yields the `Unknown tool` error result — for every handler record, so no
default or fallback handler is ever invoked — and the enveloped result of
such a call is the `"Error: Unknown tool: <name>"` envelope. -/
theorem dispatch_unknown_tool {A V : Type} (h : Handlers A V)
    (render : V → String) (tool_name : String) (args : A)
    (hname : tool_name ∉ registeredToolNames) :
    route h tool_name args = Except.error ("Unknown tool: " ++ tool_name) ∧
    handle_call_tool h render tool_name args =
      ⟨["Error: " ++ ("Unknown tool: " ++ tool_name)]⟩ := by
  simp [registeredToolNames, calculatorToolNames, fileToolNames,
    webToolNames, dataToolNames] at hname
  obtain ⟨h1, h2, h3, h4, h5, h6, h7, h8, h9, h10, h11, h12, h13, h14,
    h15, h16, h17, h18, h19, h20⟩ := hname
  constructor
  · simp [route, h1, h2, h3, h4, h5, h6, h7, h8, h9, h10, h11, h12, h13,
      h14, h15, h16, h17, h18, h19, h20]
  · simp [handle_call_tool, route, h1, h2, h3, h4, h5, h6, h7, h8, h9,
      h10, h11, h12, h13, h14, h15, h16, h17, h18, h19, h20]

/-- Witness for C2: the unregistered name `"frobnicate"` dispatches to the
`Unknown tool` error envelope. -/
theorem dispatch_unknown_tool_witness :
    route stubHandlers "frobnicate" () =
      Except.error ("Unknown tool: " ++ "frobnicate") ∧
    handle_call_tool stubHandlers id "frobnicate" () =
      ⟨["Error: " ++ ("Unknown tool: " ++ "frobnicate")]⟩ :=
  ⟨(dispatch_unknown_tool stubHandlers id "frobnicate" () (by decide)).1,
   (dispatch_unknown_tool stubHandlers id "frobnicate" () (by decide)).2⟩

/-- Counterexample to claim C3 as stated: same-unit conversion is not the
identity — converting `5` from `"cm"` to `"cm"` raises `Conversion ... not
supported` instead of returning `5`. -/
theorem convert_units_same_unit_cex :
    convert_units ⟨some 5, some "cm", some "cm"⟩ =
      Except.error "Invalid input: Conversion from cm to cm not supported" ∧
    convert_units ⟨some 5, some "cm", some "cm"⟩ ≠
      Except.ok ⟨5, "cm", "cm", 5⟩ := by
  refine ⟨rfl, ?_⟩
  intro hc
  rw [(rfl : convert_units ⟨some 5, some "cm", some "cm"⟩ =
    Except.error "Invalid input: Conversion from cm to cm not supported")] at hc
  exact Except.noConfusion hc

/-- Claim C3 as amended: for every unit name `u` and value `v`,
`convertUnits(v, u, u)` fails with the unsupported-conversion error (the
code has no same-unit shortcut, and no key of the factor table has the
shape `u_to_u`, so both the direct and the reverse lookup miss). -/
theorem convert_units_same_unit_unsupported (u : String) (v : ℚ) :
    convert_units ⟨some v, some u, some u⟩ =
      Except.error ("Invalid input: " ++ ("Conversion from " ++ pyLower u ++
        " to " ++ pyLower u ++ " not supported")) := by
  simp [convert_units, lookup_self_none, Except.mapError]

/-- Claim C8: converting any value `v` from `"cm"` to `"m"` succeeds via
the direct `cm_to_m` table entry and returns exactly `v / 100`. -/
theorem convert_units_cm_to_m (v : ℚ) :
    convert_units ⟨some v, some "cm", some "m"⟩ =
      Except.ok { original_value := v, from_unit := "cm", to_unit := "m",
                  converted_value := v / 100 } := by
  have h : convert_units ⟨some v, some "cm", some "m"⟩ =
      Except.ok { original_value := v, from_unit := "cm", to_unit := "m",
                  converted_value := v * (1/100) } := rfl
  rw [h]
  norm_num [mul_one_div]

/-- Claim C9: in `calculate_basic`, an absent operand `a` or `b` behaves
exactly as an explicit `0` (no missing-argument error exists), and in
particular `add` with an empty argument dictionary succeeds with result
`0`. -/
theorem calculate_basic_missing_operands :
    (∀ op args, args.a = none →
      calculate_basic op args = calculate_basic op { args with a := some 0 }) ∧
    (∀ op args, args.b = none →
      calculate_basic op args = calculate_basic op { args with b := some 0 }) ∧
    calculate_basic "add" {} =
      Except.ok { operation := "add", a := 0, b := 0, result := 0 } := by
  refine ⟨?_, ?_, ?_⟩
  · intro op args ha
    simp [calculate_basic, ha]
  · intro op args hb
    simp [calculate_basic, hb]
  · norm_num [calculate_basic, Except.mapError, Except.pure, pure, Except.bind, bind]

/-- Witness for C9: `multiply` with operand `a` absent equals `multiply`
with `a = 0` explicitly, and `add` with no arguments returns `0`. -/
theorem calculate_basic_missing_operands_witness :
    calculate_basic "multiply" { a := none, b := some 3 } =
      calculate_basic "multiply" { a := some 0, b := some 3 } ∧
    calculate_basic "add" {} =
      Except.ok { operation := "add", a := 0, b := 0, result := 0 } :=
  ⟨calculate_basic_missing_operands.1 "multiply" { a := none, b := some 3 } rfl,
   calculate_basic_missing_operands.2.2⟩

/-- Counterexample to claim C4 as stated: the registered resource
`system://status` has one of the two allegedly recognized schemes, yet
reading it does not return its content — it fails with the
unsupported-resource error (only `file://` is recognized by
`handle_read_resource`). -/
theorem read_resource_system_scheme_cex :
    "system://status" ∈ get_file_resources [] ∧
    handle_read_resource (fun _ => Except.ok "") (get_file_resources [])
      "system://status" =
      Except.error "Unsupported resource type: system://status" :=
  ⟨by decide, rfl⟩

/-- Claim C4 as amended: `readResource` recognizes only the `file://`
scheme.  A registered `file://` URI is read from the file system and its
content returned; every registered URI of any other scheme (the
`system://` resources included) fails with the unsupported-resource
error. -/
theorem read_resource_file_scheme_only (fs : String → Except String String)
    (resources : List String) (uri : String) (hmem : uri ∈ resources) :
    (strStartsWith uri "file://" = false →
      handle_read_resource fs resources uri =
        Except.error ("Unsupported resource type: " ++ uri)) ∧
    (∀ c, strStartsWith uri "file://" = true → fs (pyDrop uri 7) = Except.ok c →
      handle_read_resource fs resources uri = Except.ok [c]) := by
  constructor
  · intro hns
    simp [handle_read_resource, hmem, hns]
  · intro c hs hfs
    simp [handle_read_resource, hmem, hs, hfs, Except.map]

/-- Witness for C4 (amended): with one discovered data file, reading its
`file://` URI returns the file content, and reading the registered
`system://logs` resource fails with the unsupported-resource error. -/
theorem read_resource_file_scheme_only_witness :
    handle_read_resource (fun p => Except.ok ("contents of " ++ p))
      (get_file_resources ["data/sample.txt"]) "file://data/sample.txt" =
      Except.ok ["contents of data/sample.txt"] ∧
    handle_read_resource (fun p => Except.ok ("contents of " ++ p))
      (get_file_resources ["data/sample.txt"]) "system://logs" =
      Except.error ("Unsupported resource type: " ++ "system://logs") :=
  ⟨(read_resource_file_scheme_only (fun p => Except.ok ("contents of " ++ p))
      (get_file_resources ["data/sample.txt"]) "file://data/sample.txt"
      (by decide)).2 "contents of data/sample.txt" rfl rfl,
   (read_resource_file_scheme_only (fun p => Except.ok ("contents of " ++ p))
      (get_file_resources ["data/sample.txt"]) "system://logs"
      (by decide)).1 rfl⟩

/-- Counterexample to claim C5 as stated: for the single-column
missing-value map `{a: 0.001}` the score the code computes is `100`
(after rounding to two decimals), not the claimed
`100 − average = 99.999`. -/
theorem quality_score_rounding_cex :
    calculate_quality_score { missing_values := some [("a", ⟨1, 1/1000⟩)] } =
      Except.ok 100 ∧
    (100 : ℚ) ≠ 100 - 1/1000 := by
  constructor
  · simp [calculate_quality_score, round2, roundHalfEven]
    norm_num [Int.fract]
  · norm_num

/-- Claim C5 as amended: for a non-empty per-column missing-value map the
quality score is `100` minus the average missing percentage, floored at
`0` and then rounded to two decimal places (Python's `round(_, 2)`,
half-to-even); with no missing-value information the score is `100`.  The
same value is what the detailed report carries. -/
theorem quality_score_formula (mv : List (String × MissingInfo)) (hne : mv ≠ []) :
    calculate_quality_score { missing_values := some mv } =
      Except.ok (round2 (max 0 (100 -
        (mv.map (fun kv => kv.2.percentage)).sum / (mv.length : ℚ)))) ∧
    calculate_quality_score { missing_values := none } = Except.ok 100 ∧
    generate_report_detailed { missing_values := some mv } =
      Except.ok { report_type := "detailed",
                  data_quality_score := round2 (max 0 (100 -
                    (mv.map (fun kv => kv.2.percentage)).sum / (mv.length : ℚ))) } := by
  have hlen : mv.length ≠ 0 := fun h => hne (List.length_eq_zero.mp h)
  refine ⟨?_, rfl, ?_⟩
  · simp [calculate_quality_score, hlen]
  · simp [generate_report_detailed, calculate_quality_score, hlen,
      Except.mapError, Except.map]

/-- Witness for C5 (amended): the formula instantiated at the one-column
map `{a: 0.001}`. -/
theorem quality_score_formula_witness :
    calculate_quality_score { missing_values := some [("a", ⟨1, 1/1000⟩)] } =
      Except.ok (round2 (max 0 (100 -
        ([("a", (⟨1, 1/1000⟩ : MissingInfo))].map (fun kv => kv.2.percentage)).sum /
          (([("a", (⟨1, 1/1000⟩ : MissingInfo))].length : ℕ) : ℚ)))) :=
  (quality_score_formula [("a", ⟨1, 1/1000⟩)] (by decide)).1

/-- Claim C6: JSON path extraction fails with the key-not-found error when
an object lacks the segment, the index-out-of-range error when a numeric
segment falls outside an array, and the invalid-array-index error when a
non-numeric segment is applied to an array; and extracting
`"metadata.total"` from `{"metadata": {"total": 2}}` yields `2`. -/
theorem extract_by_path_spec :
    (∀ (fields : List (String × Json)) current remaining,
      fields.lookup current = none →
      extract_by_path (.obj fields) (current :: remaining) =
        Except.error (.keyNotFound current)) ∧
    (∀ (elems : List Json) current remaining (i : ℤ),
      pyInt? current = some i → ¬(0 ≤ i ∧ i < (elems.length : ℤ)) →
      extract_by_path (.arr elems) (current :: remaining) =
        Except.error (.indexOutOfRange i)) ∧
    (∀ (elems : List Json) current remaining,
      pyInt? current = none →
      extract_by_path (.arr elems) (current :: remaining) =
        Except.error (.invalidIndex current)) ∧
    process_json_extract (.obj [("metadata", .obj [("total", .num 2)])])
      "metadata.total" = Except.ok (.num 2) := by
  refine ⟨?_, ?_, ?_, rfl⟩
  · intro fields current remaining hlk
    simp [extract_by_path, hlk]
  · intro elems current remaining i hint hcond
    simp [extract_by_path, hint, hcond]
  · intro elems current remaining hnone
    simp [extract_by_path, hnone]

/-- Witness for C6: the three failure kinds and the success case on
concrete documents. -/
theorem extract_by_path_spec_witness :
    extract_by_path (.obj [("a", .num 1)]) ["b"] =
      Except.error (.keyNotFound "b") ∧
    extract_by_path (.arr [.num 1]) ["5"] =
      Except.error (.indexOutOfRange 5) ∧
    extract_by_path (.arr [.num 1]) ["x"] =
      Except.error (.invalidIndex "x") ∧
    process_json_extract (.obj [("metadata", .obj [("total", .num 2)])])
      "metadata.total" = Except.ok (.num 2) :=
  ⟨extract_by_path_spec.1 [("a", .num 1)] "b" [] rfl,
   extract_by_path_spec.2.1 [.num 1] "5" [] 5 rfl (by decide),
   extract_by_path_spec.2.2.1 [.num 1] "x" [] rfl,
   extract_by_path_spec.2.2.2⟩

/-- Claim C7: `getPrompt` on a known prompt with a truthy description
returns the description with each supplied `{key}` textually substituted,
carried both as the result description and as the content of the single
`user` message; and when none of the supplied keys occurs as a
placeholder, the description comes back verbatim (so placeholders for
unsupplied keys are left in place, with no error). -/
theorem get_prompt_template_substitution (prompts : List (String × Option String))
    (name : String) (args : List (String × String)) (d : String)
    (hlk : prompts.lookup name = some (some d)) (hne : d ≠ "") :
    handle_get_prompt prompts name args =
      Except.ok { description := some (substAll d args),
                  messages := [{ role := "user", content := substAll d args }] } ∧
    ((∀ kv ∈ args, substrB ("\x7b" ++ kv.1 ++ "\x7d").data d.data = false) →
      substAll d args = d) := by
  refine ⟨?_, substAll_no_occurrence args d⟩
  simp [handle_get_prompt, hlk, hne]

/-- Witness for C7: substituting `name` into `"Hello {name}, meet {other}"`
replaces `{name}` and leaves the unsupplied `{other}` verbatim; a
description without the supplied placeholder comes back unchanged. -/
theorem get_prompt_template_substitution_witness :
    handle_get_prompt [("greet", some "Hello {name}, meet {other}")] "greet"
      [("name", "Ada")] =
      Except.ok { description := some "Hello Ada, meet {other}",
                  messages := [{ role := "user", content := "Hello Ada, meet {other}" }] } ∧
    substAll "No placeholders here" [("name", "Ada")] = "No placeholders here" :=
  ⟨((get_prompt_template_substitution [("greet", some "Hello {name}, meet {other}")]
      "greet" [("name", "Ada")] "Hello {name}, meet {other}" rfl (by decide)).1).trans
      (by rfl),
   (get_prompt_template_substitution [("x", some "No placeholders here")] "x"
      [("name", "Ada")] "No placeholders here" rfl (by decide)).2 (by decide)⟩

/-- Counterexample to claim C10 as stated: a `download_file` call whose
explicit filename contains `".."` but whose `url` argument is empty fails
with the url-required error, not the invalid-filename error (though still
before any network or disk activity). -/
theorem download_bad_filename_cex :
    download_file netRefuse { url := some "", filename := some "../x" } =
      (Except.error "Download failed: url is required", ⟨false, false⟩) ∧
    ("Download failed: url is required" : String) ≠ "Download failed: Invalid filename" :=
  ⟨rfl, by decide⟩

/-- Claim C10 as amended: whenever the explicit filename contains `".."`
or `"/"`, the call fails with no network request issued and no file
created; and whenever the url argument is additionally present and passes
URL validation, the failure is exactly the invalid-filename error. -/
theorem download_bad_filename_guard (net : String → Except String NetResp)
    (args : DlArgs) (fn : String) (hfn : args.filename = some fn)
    (hbad : strContains fn ".." = true ∨ strContains fn "/" = true) :
    (download_file net args).2 = ⟨false, false⟩ ∧
    (∃ e, (download_file net args).1 = Except.error e) ∧
    (∀ u, args.url = some u → u ≠ "" → validate_url u = Except.ok u →
      download_file net args =
        (Except.error "Download failed: Invalid filename", ⟨false, false⟩)) := by
  have hfn0 : fn ≠ "" := by
    intro h
    rcases hbad with hb | hb <;> (rw [h] at hb; exact absurd hb (by decide))
  have hbadc : (strContains fn ".." || strContains fn "/") = true := by
    rcases hbad with hb | hb <;> simp [hb]
  by_cases h0 : args.url.getD "" = ""
  · refine ⟨?_, ⟨"Download failed: url is required", ?_⟩, ?_⟩
    · simp [download_file, h0]
    · simp [download_file, h0, Except.mapError]
    · intro u hu hne _
      rw [hu] at h0
      simp at h0
      exact absurd h0 hne
  · cases hv : validate_url (args.url.getD "") with
    | error e =>
      refine ⟨?_, ⟨"Download failed: " ++ e, ?_⟩, ?_⟩
      · simp [download_file, h0, hv]
      · simp [download_file, h0, hv, Except.mapError]
      · intro u hu hok
        rw [hu] at hv
        simp only [Option.getD_some] at hv
        intro hvok
        rw [hvok] at hv
        exact Except.noConfusion hv
    | ok vurl =>
      have hvu : vurl = args.url.getD "" := validate_url_ok_eq _ _ hv
      subst hvu
      refine ⟨?_, ⟨"Download failed: Invalid filename", ?_⟩, ?_⟩
      · simp [download_file, h0, hv, hfn, hfn0, hbadc]
      · simp [download_file, h0, hv, hfn, hfn0, hbadc, Except.mapError]
      · intro u hu hne hok
        simp [download_file, h0, hv, hfn, hfn0, hbadc, Except.mapError]

/-- Witness for C10 (amended): a valid url together with the traversal
filename `"../x"` produces exactly the invalid-filename failure with no
network or disk effects. -/
theorem download_bad_filename_guard_witness :
    download_file netRefuse
      { url := some "http://example.com/a.bin", filename := some "../x" } =
      (Except.error "Download failed: Invalid filename", ⟨false, false⟩) :=
  (download_bad_filename_guard netRefuse
      { url := some "http://example.com/a.bin", filename := some "../x" }
      "../x" rfl (Or.inl (by decide))).2.2
    "http://example.com/a.bin" rfl (by decide) rfl

end ChatMcp
